import Mathlib

/-!
Shallow embedding of the PyOnSSET cost-model / table-generation engine
(`pyonsset/tables.py` and `pyonsset/constants.py`) over the real numbers,
together with theorems settling the frozen claims about it.

Python floats are modelled as exact reals; `math.ceil` is `Int.ceil`,
`math.sqrt` is `Real.sqrt`, the float `**` with a real exponent is `Real.rpow`,
and `round(x, 3)` is rounding `x * 1000` to the nearest integer (Python uses
round-half-to-even on binary floats; the two agree except on exact ties,
which play no role in any theorem below).
-/

set_option maxHeartbeats 1000000

noncomputable section

namespace PyOnSSET

/-! ## Constants from `pyonsset/constants.py` -/

/-- `ELEC_DISTANCES = [5*x for x in range(1, 11)]` (km). -/
def ELEC_DISTANCES : List ℝ := [5, 10, 15, 20, 25, 30, 35, 40, 45, 50]

/-- `NUM_PEOPLE_PER_HH = 5.0`. -/
def NUM_PEOPLE_PER_HH : ℝ := 5

/-- `LHV_DIESEL = 9.9445485` (kWh/l). -/
def LHV_DIESEL : ℝ := 9.9445485

/-- `HOURS_PER_YEAR = 8760`. -/
def HOURS_PER_YEAR : ℝ := 8760

/-- `people_arr = [10 * x for x in range(1, 401)]` from `make_tables`. -/
def people_arr : List ℕ := (List.range 400).map (fun x => 10 * (x + 1))

/-! ## Data model -/

/-- The country-specific columns read from the specs file and used by
`get_lcoes`: `SPE_GRID_PRICE`, `SPE_GRID_LOSSES`, `SPE_BASE_TO_PEAK`,
`SPE_DIESEL_PRICE_LOW`. -/
structure CountrySpec where
  grid_price : ℝ
  grid_losses : ℝ
  base_to_peak : ℝ
  diesel_price_low : ℝ

/-- The parameters of `calc_lcoe`, with the Python default values.
`scen` is the `scenario` argument (kWh/hh/year) and `base_to_peak` the
`base_to_peak_load_ratio` argument. -/
structure LcoeParams where
  people : ℝ
  scen : ℝ
  om_of_td_lines : ℝ
  distribution_losses : ℝ
  connection_cost_per_hh : ℝ
  base_to_peak : ℝ
  system_life : ℕ
  mv_line_length : ℝ := 0
  om_costs : ℝ := 0
  capital_cost : ℝ := 0
  capacity_factor : ℝ := 1
  efficiency : ℝ := 1
  diesel_price : ℝ := 0
  additional_mv_line_length : ℝ := 0
  grid_price : ℝ := 0
  grid : Bool := false
  diesel : Bool := false
  standalone : Bool := false

/-! ## Local constants of `calc_lcoe` -/

def grid_cell_area : ℝ := 100
def mv_line_cost : ℝ := 9000
def lv_line_cost : ℝ := 5000
def discount_rate : ℝ := 0.08
def mv_line_capacity : ℝ := 50
def lv_line_capacity : ℝ := 10
def lv_line_max_length : ℝ := 30
def hv_line_cost : ℝ := 53000
def mv_line_max_length : ℝ := 50
def hv_lv_transformer_cost : ℝ := 5000
def mv_increase_rate : ℝ := 0.1

/-! ## Network sizing: the intermediate values of `calc_lcoe`, one def per
Python local, in source order. -/

/-- `people *= grid_cell_area` — the area-scaled population. -/
def people_s (p : LcoeParams) : ℝ := p.people * grid_cell_area

/-- `consumption = people / NUM_PEOPLE_PER_HH * scenario`. -/
def consumption (p : LcoeParams) : ℝ := people_s p / NUM_PEOPLE_PER_HH * p.scen

/-- `average_load = consumption * (1 + distribution_losses) / HOURS_PER_YEAR`. -/
def average_load (p : LcoeParams) : ℝ :=
  consumption p * (1 + p.distribution_losses) / HOURS_PER_YEAR

/-- `peak_load = average_load / base_to_peak_load_ratio`. -/
def peak_load (p : LcoeParams) : ℝ := average_load p / p.base_to_peak

/-- `no_mv_lines = ceil(peak_load / mv_line_capacity)`. -/
def no_mv_lines (p : LcoeParams) : ℤ := ⌈peak_load p / mv_line_capacity⌉

/-- `no_lv_lines = ceil(peak_load / lv_line_capacity)`. -/
def no_lv_lines (p : LcoeParams) : ℤ := ⌈peak_load p / lv_line_capacity⌉

/-- `lv_networks_lim_capacity = no_lv_lines / no_mv_lines`. -/
def lv_networks_lim_capacity (p : LcoeParams) : ℝ :=
  (no_lv_lines p : ℝ) / (no_mv_lines p : ℝ)

/-- `lv_networks_lim_length = ((grid_cell_area / no_mv_lines) / (lv_line_max_length / sqrt(2))) ** 2`. -/
def lv_networks_lim_length (p : LcoeParams) : ℝ :=
  ((grid_cell_area / (no_mv_lines p : ℝ)) / (lv_line_max_length / Real.sqrt 2)) ^ (2 : ℕ)

/-- `actual_lv_lines = ceil(min([people / NUM_PEOPLE_PER_HH, max([lv_networks_lim_capacity, lv_networks_lim_length])]))`. -/
def actual_lv_lines (p : LcoeParams) : ℤ :=
  ⌈min (people_s p / NUM_PEOPLE_PER_HH)
    (max (lv_networks_lim_capacity p) (lv_networks_lim_length p))⌉

/-- `hh_per_lv_network = (people / NUM_PEOPLE_PER_HH) / (actual_lv_lines * no_mv_lines)`. -/
def hh_per_lv_network (p : LcoeParams) : ℝ :=
  (people_s p / NUM_PEOPLE_PER_HH) / ((actual_lv_lines p : ℝ) * (no_mv_lines p : ℝ))

/-- `lv_unit_length = sqrt(grid_cell_area / (people / NUM_PEOPLE_PER_HH)) * sqrt(2) / 2`. -/
def lv_unit_length (p : LcoeParams) : ℝ :=
  Real.sqrt (grid_cell_area / (people_s p / NUM_PEOPLE_PER_HH)) * Real.sqrt 2 / 2

/-- `lv_lines_length_per_lv_network = 1.333 * hh_per_lv_network * lv_unit_length`. -/
def lv_lines_length_per_lv_network (p : LcoeParams) : ℝ :=
  1.333 * hh_per_lv_network p * lv_unit_length p

/-- `total_lv_lines_length = no_mv_lines * actual_lv_lines * lv_lines_length_per_lv_network`. -/
def total_lv_lines_length (p : LcoeParams) : ℝ :=
  (no_mv_lines p : ℝ) * (actual_lv_lines p : ℝ) * lv_lines_length_per_lv_network p

/-- `line_reach = (grid_cell_area / no_mv_lines) / (2 * sqrt(grid_cell_area / no_lv_lines))`. -/
def line_reach (p : LcoeParams) : ℝ :=
  (grid_cell_area / (no_mv_lines p : ℝ)) /
    (2 * Real.sqrt (grid_cell_area / (no_lv_lines p : ℝ)))

/-- `total_length_of_lines = min([line_reach, mv_line_max_length]) * no_mv_lines`. -/
def total_length_of_lines (p : LcoeParams) : ℝ :=
  min (line_reach p) mv_line_max_length * (no_mv_lines p : ℝ)

/-- Python `round(x, 3)` (ties modelled as round-to-nearest). -/
def round3 (x : ℝ) : ℝ := (round (x * 1000) : ℤ) / 1000

/-- `additional_hv_lines = max([0, round(sqrt(grid_cell_area) / (2 * min([line_reach, mv_line_max_length])) / 10, 3) - 1])`. -/
def additional_hv_lines (p : LcoeParams) : ℝ :=
  max 0 (round3 (Real.sqrt grid_cell_area / (2 * min (line_reach p) mv_line_max_length) / 10) - 1)

/-- `hv_lines_total_length = (sqrt(grid_cell_area) / 2) * additional_hv_lines * sqrt(grid_cell_area)`. -/
def hv_lines_total_length (p : LcoeParams) : ℝ :=
  (Real.sqrt grid_cell_area / 2) * additional_hv_lines p * Real.sqrt grid_cell_area

/-- `num_transformers = ceil(additional_hv_lines + no_mv_lines + (no_mv_lines * actual_lv_lines))`. -/
def num_transformers (p : LcoeParams) : ℤ :=
  ⌈additional_hv_lines p + (no_mv_lines p : ℝ) + (no_mv_lines p : ℝ) * (actual_lv_lines p : ℝ)⌉

/-- `generation_per_year = average_load * HOURS_PER_YEAR`. -/
def generation_per_year (p : LcoeParams) : ℝ := average_load p * HOURS_PER_YEAR

/-! ## Investment, O&M and fuel costs -/

/-- The grid-branch `td_investment_cost` (the float `**` is `Real.rpow`). -/
def td_investment_cost_grid (p : LcoeParams) : ℝ :=
  hv_lines_total_length p * hv_line_cost +
  total_length_of_lines p * mv_line_cost +
  total_lv_lines_length p * lv_line_cost +
  (num_transformers p : ℝ) * hv_lv_transformer_cost +
  people_s p / NUM_PEOPLE_PER_HH * p.connection_cost_per_hh +
  p.additional_mv_line_length *
    (mv_line_cost * (1 + mv_increase_rate) ^ (p.additional_mv_line_length / 5 - 1))

/-- The non-grid `total_lv_lines_length *= 0 if standalone else 0.75`. -/
def total_lv_lines_length_adj (p : LcoeParams) : ℝ :=
  total_lv_lines_length p * (if p.standalone then 0 else 0.75)

/-- `installed_capacity = peak_load / capacity_factor` (non-grid branch). -/
def installed_capacity (p : LcoeParams) : ℝ := peak_load p / p.capacity_factor

/-- The non-grid `td_investment_cost`:
`mv_total_line_cost + lv_total_line_cost + (people / NUM_PEOPLE_PER_HH) * connection_cost_per_hh`. -/
def td_investment_cost_nongrid (p : LcoeParams) : ℝ :=
  mv_line_cost * p.mv_line_length + lv_line_cost * total_lv_lines_length_adj p +
  people_s p / NUM_PEOPLE_PER_HH * p.connection_cost_per_hh

/-- `total_investment_cost` in either branch (non-grid adds
`capital_investment = installed_capacity * capital_cost`). -/
def total_investment_cost (p : LcoeParams) : ℝ :=
  if p.grid then td_investment_cost_grid p
  else td_investment_cost_nongrid p + installed_capacity p * p.capital_cost

/-- `total_om_cost` in either branch (non-grid adds
`capital_cost * om_costs * installed_capacity`). -/
def total_om_cost (p : LcoeParams) : ℝ :=
  if p.grid then td_investment_cost_grid p * p.om_of_td_lines
  else td_investment_cost_nongrid p * p.om_of_td_lines +
    p.capital_cost * p.om_costs * installed_capacity p

/-- `fuel_cost`: `diesel_price / efficiency` for diesel, `grid_price` for grid,
else `0`. -/
def fuel_cost (p : LcoeParams) : ℝ :=
  if p.diesel then p.diesel_price / p.efficiency
  else if p.grid then p.grid_price
  else 0

/-! ## The discounted-cash-flow roll-up (lines 394-408 of `tables.py`).
The numpy arrays `it`, `mt`, `ft`, `el_gen` over `year = 0 .. system_life`
become if-then-else year functions under a `Finset.range` sum. -/

/-- `np.sum(discounted_costs)` where
`discounted_costs = (it + mt + ft) / discount_factor`, with
`it[0] = I` (else 0), `mt[0] = 0` (else `OM`), `ft = el_gen * F` and
`el_gen[0] = 0` (else `G`), `discount_factor = (1 + discount_rate) ** year`. -/
def discounted_costs_sum (I OM F G : ℝ) (L : ℕ) : ℝ :=
  ∑ y in Finset.range (L + 1),
    ((if y = 0 then I else 0) + (if y = 0 then 0 else OM) +
      (if y = 0 then 0 else G) * F) / (1 + discount_rate) ^ y

/-- `np.sum(discounted_generation)` where
`discounted_generation = el_gen / discount_factor`. -/
def discounted_gen_sum (G : ℝ) (L : ℕ) : ℝ :=
  ∑ y in Finset.range (L + 1), (if y = 0 then 0 else G) / (1 + discount_rate) ^ y

/-- `calc_lcoe`: the final
`np.sum(discounted_costs) / np.sum(discounted_generation)`. -/
def calc_lcoe (p : LcoeParams) : ℝ :=
  discounted_costs_sum (total_investment_cost p) (total_om_cost p) (fuel_cost p)
      (generation_per_year p) p.system_life /
    discounted_gen_sum (generation_per_year p) p.system_life

/-! ## `get_lcoes`: one `calc_lcoe` call per technology pathway -/

/-- The dictionary returned by `get_lcoes`: a list over `ELEC_DISTANCES` for
the `grid` key and one scalar per off-grid technology key. -/
structure LcoesOut where
  grid : List ℝ
  mg_hydro : ℝ
  mg_pv_low : ℝ
  mg_pv_high : ℝ
  mg_wind_low : ℝ
  mg_wind_mid : ℝ
  mg_wind_high : ℝ
  mg_diesel : ℝ
  sa_diesel : ℝ
  sa_pv_low : ℝ
  sa_pv_high : ℝ

/-- `get_lcoes(country_specs, people, scenario, calc_cap_only)`.  The locals
`om_of_td_lines`, `grid_price`, `diesel_price` (`= diesel_price_low / LHV_DIESEL`)
and each per-technology `om_costs` are zeroed when `calc_cap_only` holds,
exactly as in the source; they are inlined at each call site. -/
def get_lcoes (cs : CountrySpec) (people scen : ℝ) (calc_cap_only : Bool) : LcoesOut :=
  { grid := ELEC_DISTANCES.map (fun d => calc_lcoe
      { people := people, scen := scen,
        om_of_td_lines := if calc_cap_only then 0 else 0.03,
        distribution_losses := cs.grid_losses,
        connection_cost_per_hh := 125,
        base_to_peak := cs.base_to_peak,
        system_life := 30,
        additional_mv_line_length := d,
        grid_price := if calc_cap_only then 0 else cs.grid_price,
        grid := true }),
    mg_hydro := calc_lcoe
      { people := people, scen := scen,
        om_of_td_lines := if calc_cap_only then 0 else 0.03,
        capacity_factor := 0.5,
        distribution_losses := 0.05,
        connection_cost_per_hh := 100,
        capital_cost := 5000,
        om_costs := if calc_cap_only then 0 else 0.02,
        base_to_peak := 1,
        system_life := 30,
        mv_line_length := 5 },
    mg_pv_low := calc_lcoe
      { people := people, scen := scen,
        om_of_td_lines := if calc_cap_only then 0 else 0.03,
        capacity_factor := 1750 / HOURS_PER_YEAR,
        distribution_losses := 0.05,
        connection_cost_per_hh := 100,
        capital_cost := 4300,
        om_costs := if calc_cap_only then 0 else 0.02,
        base_to_peak := 0.9,
        system_life := 20 },
    mg_pv_high := calc_lcoe
      { people := people, scen := scen,
        om_of_td_lines := if calc_cap_only then 0 else 0.03,
        capacity_factor := 2250 / HOURS_PER_YEAR,
        distribution_losses := 0.05,
        connection_cost_per_hh := 100,
        capital_cost := 4300,
        om_costs := if calc_cap_only then 0 else 0.02,
        base_to_peak := 0.9,
        system_life := 20 },
    mg_wind_low := calc_lcoe
      { people := people, scen := scen,
        om_of_td_lines := if calc_cap_only then 0 else 0.03,
        capacity_factor := 0.2,
        distribution_losses := 0.05,
        connection_cost_per_hh := 100,
        capital_cost := 3000,
        om_costs := if calc_cap_only then 0 else 0.02,
        base_to_peak := 0.75,
        system_life := 20 },
    mg_wind_mid := calc_lcoe
      { people := people, scen := scen,
        om_of_td_lines := if calc_cap_only then 0 else 0.03,
        capacity_factor := 0.3,
        distribution_losses := 0.05,
        connection_cost_per_hh := 100,
        capital_cost := 3000,
        om_costs := if calc_cap_only then 0 else 0.02,
        base_to_peak := 0.75,
        system_life := 20 },
    mg_wind_high := calc_lcoe
      { people := people, scen := scen,
        om_of_td_lines := if calc_cap_only then 0 else 0.03,
        capacity_factor := 0.4,
        distribution_losses := 0.05,
        connection_cost_per_hh := 100,
        capital_cost := 3000,
        om_costs := if calc_cap_only then 0 else 0.02,
        base_to_peak := 0.75,
        system_life := 20 },
    mg_diesel := calc_lcoe
      { people := people, scen := scen,
        om_of_td_lines := if calc_cap_only then 0 else 0.03,
        capacity_factor := 0.7,
        distribution_losses := 0.05,
        connection_cost_per_hh := 100,
        capital_cost := 721,
        om_costs := if calc_cap_only then 0 else 0.1,
        base_to_peak := 0.5,
        system_life := 15,
        efficiency := 0.33,
        diesel_price := if calc_cap_only then 0 else cs.diesel_price_low / LHV_DIESEL,
        diesel := true },
    sa_diesel := calc_lcoe
      { people := people, scen := scen,
        om_of_td_lines := 0,
        capacity_factor := 0.7,
        distribution_losses := 0,
        connection_cost_per_hh := 100,
        capital_cost := 721,
        om_costs := if calc_cap_only then 0 else 0.1,
        base_to_peak := 0.5,
        system_life := 15,
        efficiency := 0.33,
        diesel_price := if calc_cap_only then 0 else cs.diesel_price_low / LHV_DIESEL,
        diesel := true,
        standalone := true },
    sa_pv_low := calc_lcoe
      { people := people, scen := scen,
        om_of_td_lines := 0,
        capacity_factor := 1750 / HOURS_PER_YEAR,
        distribution_losses := 0,
        connection_cost_per_hh := 100,
        capital_cost := 4300,
        om_costs := if calc_cap_only then 0 else 0.02,
        base_to_peak := 0.9,
        system_life := 20,
        standalone := true },
    sa_pv_high := calc_lcoe
      { people := people, scen := scen,
        om_of_td_lines := 0,
        capacity_factor := 2250 / HOURS_PER_YEAR,
        distribution_losses := 0,
        connection_cost_per_hh := 100,
        capital_cost := 4300,
        om_costs := if calc_cap_only then 0 else 0.02,
        base_to_peak := 0.9,
        system_life := 20,
        standalone := true } }

/-! ## The off-grid technology enumeration (spec-side comparator for the
Portfolio Evaluator claims): the `techs` list of `make_tables`. -/

/-- The off-grid technologies of the `techs` list in `make_tables`. -/
inductive OffGridTech where
  | mgHydro | mgPvLow | mgPvHigh | mgWindLow | mgWindMid | mgWindHigh
  | mgDiesel | saDiesel | saPvLow | saPvHigh
deriving DecidableEq

/-- The `techs` list of `make_tables`, in source order. -/
def og_techs : List OffGridTech :=
  [.mgHydro, .mgPvLow, .mgPvHigh, .mgWindLow, .mgWindMid, .mgWindHigh,
   .mgDiesel, .saDiesel, .saPvLow, .saPvHigh]

/-- Selector from the `get_lcoes` dictionary for an off-grid technology key. -/
def tech_lcoe (o : LcoesOut) : OffGridTech → ℝ
  | .mgHydro => o.mg_hydro
  | .mgPvLow => o.mg_pv_low
  | .mgPvHigh => o.mg_pv_high
  | .mgWindLow => o.mg_wind_low
  | .mgWindMid => o.mg_wind_mid
  | .mgWindHigh => o.mg_wind_high
  | .mgDiesel => o.mg_diesel
  | .saDiesel => o.sa_diesel
  | .saPvLow => o.sa_pv_low
  | .saPvHigh => o.sa_pv_high

/-- The fixed constant parameter record each off-grid technology contributes
to its Cost Model call (spec-side declarative table, to be compared with the
inline call sites of `get_lcoes`). -/
def off_grid_params (t : OffGridTech) (cs : CountrySpec) (people scen : ℝ)
    (calc_cap_only : Bool) : LcoeParams :=
  match t with
  | .mgHydro =>
      { people := people, scen := scen,
        om_of_td_lines := if calc_cap_only then 0 else 0.03,
        capacity_factor := 0.5, distribution_losses := 0.05,
        connection_cost_per_hh := 100, capital_cost := 5000,
        om_costs := if calc_cap_only then 0 else 0.02,
        base_to_peak := 1, system_life := 30, mv_line_length := 5 }
  | .mgPvLow =>
      { people := people, scen := scen,
        om_of_td_lines := if calc_cap_only then 0 else 0.03,
        capacity_factor := 1750 / HOURS_PER_YEAR, distribution_losses := 0.05,
        connection_cost_per_hh := 100, capital_cost := 4300,
        om_costs := if calc_cap_only then 0 else 0.02,
        base_to_peak := 0.9, system_life := 20 }
  | .mgPvHigh =>
      { people := people, scen := scen,
        om_of_td_lines := if calc_cap_only then 0 else 0.03,
        capacity_factor := 2250 / HOURS_PER_YEAR, distribution_losses := 0.05,
        connection_cost_per_hh := 100, capital_cost := 4300,
        om_costs := if calc_cap_only then 0 else 0.02,
        base_to_peak := 0.9, system_life := 20 }
  | .mgWindLow =>
      { people := people, scen := scen,
        om_of_td_lines := if calc_cap_only then 0 else 0.03,
        capacity_factor := 0.2, distribution_losses := 0.05,
        connection_cost_per_hh := 100, capital_cost := 3000,
        om_costs := if calc_cap_only then 0 else 0.02,
        base_to_peak := 0.75, system_life := 20 }
  | .mgWindMid =>
      { people := people, scen := scen,
        om_of_td_lines := if calc_cap_only then 0 else 0.03,
        capacity_factor := 0.3, distribution_losses := 0.05,
        connection_cost_per_hh := 100, capital_cost := 3000,
        om_costs := if calc_cap_only then 0 else 0.02,
        base_to_peak := 0.75, system_life := 20 }
  | .mgWindHigh =>
      { people := people, scen := scen,
        om_of_td_lines := if calc_cap_only then 0 else 0.03,
        capacity_factor := 0.4, distribution_losses := 0.05,
        connection_cost_per_hh := 100, capital_cost := 3000,
        om_costs := if calc_cap_only then 0 else 0.02,
        base_to_peak := 0.75, system_life := 20 }
  | .mgDiesel =>
      { people := people, scen := scen,
        om_of_td_lines := if calc_cap_only then 0 else 0.03,
        capacity_factor := 0.7, distribution_losses := 0.05,
        connection_cost_per_hh := 100, capital_cost := 721,
        om_costs := if calc_cap_only then 0 else 0.1,
        base_to_peak := 0.5, system_life := 15, efficiency := 0.33,
        diesel_price := if calc_cap_only then 0 else cs.diesel_price_low / LHV_DIESEL,
        diesel := true }
  | .saDiesel =>
      { people := people, scen := scen, om_of_td_lines := 0,
        capacity_factor := 0.7, distribution_losses := 0,
        connection_cost_per_hh := 100, capital_cost := 721,
        om_costs := if calc_cap_only then 0 else 0.1,
        base_to_peak := 0.5, system_life := 15, efficiency := 0.33,
        diesel_price := if calc_cap_only then 0 else cs.diesel_price_low / LHV_DIESEL,
        diesel := true, standalone := true }
  | .saPvLow =>
      { people := people, scen := scen, om_of_td_lines := 0,
        capacity_factor := 1750 / HOURS_PER_YEAR, distribution_losses := 0,
        connection_cost_per_hh := 100, capital_cost := 4300,
        om_costs := if calc_cap_only then 0 else 0.02,
        base_to_peak := 0.9, system_life := 20, standalone := true }
  | .saPvHigh =>
      { people := people, scen := scen, om_of_td_lines := 0,
        capacity_factor := 2250 / HOURS_PER_YEAR, distribution_losses := 0,
        connection_cost_per_hh := 100, capital_cost := 4300,
        om_costs := if calc_cap_only then 0 else 0.02,
        base_to_peak := 0.9, system_life := 20, standalone := true }

/-- The grid parameter record at additional MV line length `d` (the body of
the list comprehension in `get_lcoes`). -/
def grid_params (cs : CountrySpec) (people scen : ℝ) (calc_cap_only : Bool)
    (d : ℝ) : LcoeParams :=
  { people := people, scen := scen,
    om_of_td_lines := if calc_cap_only then 0 else 0.03,
    distribution_losses := cs.grid_losses,
    connection_cost_per_hh := 125,
    base_to_peak := cs.base_to_peak,
    system_life := 30,
    additional_mv_line_length := d,
    grid_price := if calc_cap_only then 0 else cs.grid_price,
    grid := true }

/-! ## The Grid Viability Resolver of `make_tables` (lines 91-107) -/

/-- `min_lcoe_techs = min(lcoes[MG_DIESEL], lcoes[MG_WIND_MID],
(lcoes[SA_PV_LOW] + lcoes[SA_PV_HIGH]) / 2, lcoes[MG_HYDRO])`. -/
def min_lcoe_techs (o : LcoesOut) : ℝ :=
  min (min (min o.mg_diesel o.mg_wind_mid) ((o.sa_pv_low + o.sa_pv_high) / 2))
    o.mg_hydro

/-- The full-cost grid LCOE entry of the `grid_lcoes` panel for a density
`people` at additional distance `d`. -/
def grid_lcoe_at (cs : CountrySpec) (scen : ℝ) (d : ℝ) (people : ℕ) : ℝ :=
  calc_lcoe (grid_params cs (people : ℝ) scen false d)

open Classical in
/-- The inner `for people in people_arr: ... if grid < min: record; break` scan:
returns the first listed density satisfying `c`, else the `1e9` sentinel the
dataframe was initialised with. -/
def scan_first (c : ℕ → Prop) : List ℕ → ℝ
  | [] => 1e9
  | p :: rest => if c p then (p : ℝ) else scan_first c rest

/-- The `num_people_for_grid` cell for one country at one distance. -/
def num_people_for_grid (cs : CountrySpec) (scen : ℝ) (d : ℝ) : ℝ :=
  scan_first
    (fun people =>
      grid_lcoe_at cs scen d people < min_lcoe_techs (get_lcoes cs (people : ℝ) scen false))
    people_arr

/-! ## Exception-aware variant of `calc_lcoe` (Python semantics).
Scalar Python code raises `ZeroDivisionError` on a zero divisor and
`math.sqrt` raises `ValueError` on a negative argument; the closing numpy
block never raises.  `python_error` collects, in evaluation order, exactly
the conditions under which the body of `calc_lcoe` raises. -/

/-- The conditions under which the Python `calc_lcoe` raises an exception:
`peak_load` (divisor `base_to_peak_load_ratio`), `lv_networks_lim_capacity`
and `lv_networks_lim_length` (divisor `no_mv_lines`), `hh_per_lv_network`
(divisor `actual_lv_lines * no_mv_lines`), `lv_unit_length` (divisor
`people / NUM_PEOPLE_PER_HH` and the sqrt argument), `line_reach` (divisor
`no_lv_lines` and the sqrt argument), `additional_hv_lines` (divisor
`2 * min(line_reach, mv_line_max_length)`), `installed_capacity` (divisor
`capacity_factor`, non-grid only) and `fuel_cost` (divisor `efficiency`,
diesel only). -/
def python_error (p : LcoeParams) : Prop :=
  p.base_to_peak = 0
  ∨ no_mv_lines p = 0
  ∨ actual_lv_lines p * no_mv_lines p = 0
  ∨ people_s p / NUM_PEOPLE_PER_HH = 0
  ∨ grid_cell_area / (people_s p / NUM_PEOPLE_PER_HH) < 0
  ∨ no_lv_lines p = 0
  ∨ grid_cell_area / (no_lv_lines p : ℝ) < 0
  ∨ 2 * min (line_reach p) mv_line_max_length = 0
  ∨ (p.grid = false ∧ p.capacity_factor = 0)
  ∨ (p.diesel = true ∧ p.efficiency = 0)

open Classical in
/-- `calc_lcoe` with Python exception semantics: `none` when the body raises,
otherwise the value `calc_lcoe` computes. -/
def calc_lcoe_checked (p : LcoeParams) : Option ℝ :=
  if python_error p then none else some (calc_lcoe p)

/-! ## Spec-side comparator definitions.
These follow the wording of the specification (not the code) and are compared
with the source-derived definitions above in the claim theorems. -/

/-- Spec wording (C1): year 0 carries the full investment cost `I` and zero
O&M and fuel; every year `1 .. system_life` carries the same O&M cost `OM`
and a fuel cost equal to the fuel unit price `F` times the annual
generation `G`. -/
def dcf_year_cost (I OM F G : ℝ) : ℕ → ℝ
  | 0 => I
  | _ + 1 => OM + F * G

/-- Spec wording (C1): year 0 carries zero generation; every year
`1 .. system_life` carries the same annual generation `G`. -/
def dcf_year_gen (G : ℝ) : ℕ → ℝ
  | 0 => 0
  | _ + 1 => G

/-- Spec wording (C1): each year's cost and generation is divided by
`(1 + 0.08) ^ year`, and the result is the sum of discounted costs divided
by the sum of discounted generation, over `system_life + 1` years. -/
def dcf_lcoe (I OM F G : ℝ) (L : ℕ) : ℝ :=
  (∑ y in Finset.range (L + 1), dcf_year_cost I OM F G y / (1 + 0.08) ^ y) /
    (∑ y in Finset.range (L + 1), dcf_year_gen G y / (1 + 0.08) ^ y)

/-- Spec wording (C8): the incremental cost for the additional distance `d`
from the existing grid — `d` times the per-km MV line cost compounded
geometrically at 10% per 5-distance-unit step. -/
def incremental_extension_cost (d : ℝ) : ℝ := d * (9000 * (1.1 : ℝ) ^ (d / 5 - 1))

/-- Spec wording (C8): the HV + MV + LV construction, transformer and
per-household connection components of the grid investment cost. -/
def grid_base_network_cost (p : LcoeParams) : ℝ :=
  hv_lines_total_length p * hv_line_cost +
  total_length_of_lines p * mv_line_cost +
  total_lv_lines_length p * lv_line_cost +
  (num_transformers p : ℝ) * hv_lv_transformer_cost +
  people_s p / NUM_PEOPLE_PER_HH * p.connection_cost_per_hh

/-- Claim wording (C9), read literally: non-grid investment = per-km MV cost
times `mv_line_length`, plus LV line cost charged on the total LV line length
reduced by 25% **unless** the technology is stand-alone (i.e. unreduced for
stand-alone), plus the per-household connection cost, plus peak load divided
by capacity factor times the capital cost per installed kW. -/
def claimed_nongrid_investment (p : LcoeParams) : ℝ :=
  mv_line_cost * p.mv_line_length +
  lv_line_cost * (total_lv_lines_length p * (if p.standalone then 1 else 0.75)) +
  people_s p / NUM_PEOPLE_PER_HH * p.connection_cost_per_hh +
  peak_load p / p.capacity_factor * p.capital_cost

/-- Amended wording (C9): non-grid investment with the LV length multiplied
by 0.75 for mini-grid technologies and by 0 (no shared LV lines) for
stand-alone technologies. -/
def amended_nongrid_investment (p : LcoeParams) : ℝ :=
  mv_line_cost * p.mv_line_length +
  lv_line_cost * (total_lv_lines_length p * (if p.standalone then 0 else 0.75)) +
  people_s p / NUM_PEOPLE_PER_HH * p.connection_cost_per_hh +
  peak_load p / p.capacity_factor * p.capital_cost

/-- Spec wording (C5): the full-cost computation applied to the same
parameters with the O&M ratio of T&D lines, the per-technology O&M ratio,
the grid electricity price and the diesel fuel price all set to zero
(the cost formula `calc_lcoe` itself unchanged). -/
def get_lcoes_zeroed (cs : CountrySpec) (people scen : ℝ) : LcoesOut :=
  { grid := ELEC_DISTANCES.map (fun d => calc_lcoe
      { people := people, scen := scen,
        om_of_td_lines := 0,
        distribution_losses := cs.grid_losses,
        connection_cost_per_hh := 125,
        base_to_peak := cs.base_to_peak,
        system_life := 30,
        additional_mv_line_length := d,
        grid_price := 0,
        grid := true }),
    mg_hydro := calc_lcoe
      { people := people, scen := scen, om_of_td_lines := 0,
        capacity_factor := 0.5, distribution_losses := 0.05,
        connection_cost_per_hh := 100, capital_cost := 5000,
        om_costs := 0, base_to_peak := 1, system_life := 30,
        mv_line_length := 5 },
    mg_pv_low := calc_lcoe
      { people := people, scen := scen, om_of_td_lines := 0,
        capacity_factor := 1750 / HOURS_PER_YEAR, distribution_losses := 0.05,
        connection_cost_per_hh := 100, capital_cost := 4300,
        om_costs := 0, base_to_peak := 0.9, system_life := 20 },
    mg_pv_high := calc_lcoe
      { people := people, scen := scen, om_of_td_lines := 0,
        capacity_factor := 2250 / HOURS_PER_YEAR, distribution_losses := 0.05,
        connection_cost_per_hh := 100, capital_cost := 4300,
        om_costs := 0, base_to_peak := 0.9, system_life := 20 },
    mg_wind_low := calc_lcoe
      { people := people, scen := scen, om_of_td_lines := 0,
        capacity_factor := 0.2, distribution_losses := 0.05,
        connection_cost_per_hh := 100, capital_cost := 3000,
        om_costs := 0, base_to_peak := 0.75, system_life := 20 },
    mg_wind_mid := calc_lcoe
      { people := people, scen := scen, om_of_td_lines := 0,
        capacity_factor := 0.3, distribution_losses := 0.05,
        connection_cost_per_hh := 100, capital_cost := 3000,
        om_costs := 0, base_to_peak := 0.75, system_life := 20 },
    mg_wind_high := calc_lcoe
      { people := people, scen := scen, om_of_td_lines := 0,
        capacity_factor := 0.4, distribution_losses := 0.05,
        connection_cost_per_hh := 100, capital_cost := 3000,
        om_costs := 0, base_to_peak := 0.75, system_life := 20 },
    mg_diesel := calc_lcoe
      { people := people, scen := scen, om_of_td_lines := 0,
        capacity_factor := 0.7, distribution_losses := 0.05,
        connection_cost_per_hh := 100, capital_cost := 721,
        om_costs := 0, base_to_peak := 0.5, system_life := 15,
        efficiency := 0.33, diesel_price := 0, diesel := true },
    sa_diesel := calc_lcoe
      { people := people, scen := scen, om_of_td_lines := 0,
        capacity_factor := 0.7, distribution_losses := 0,
        connection_cost_per_hh := 100, capital_cost := 721,
        om_costs := 0, base_to_peak := 0.5, system_life := 15,
        efficiency := 0.33, diesel_price := 0, diesel := true,
        standalone := true },
    sa_pv_low := calc_lcoe
      { people := people, scen := scen, om_of_td_lines := 0,
        capacity_factor := 1750 / HOURS_PER_YEAR, distribution_losses := 0,
        connection_cost_per_hh := 100, capital_cost := 4300,
        om_costs := 0, base_to_peak := 0.9, system_life := 20,
        standalone := true },
    sa_pv_high := calc_lcoe
      { people := people, scen := scen, om_of_td_lines := 0,
        capacity_factor := 2250 / HOURS_PER_YEAR, distribution_losses := 0,
        connection_cost_per_hh := 100, capital_cost := 4300,
        om_costs := 0, base_to_peak := 0.9, system_life := 20,
        standalone := true } }

/-! ## Concrete parameter records used in witnesses and counterexamples -/

/-- The concrete country fixture of spec §8 (grid price 0.15, losses 0.08,
base-to-peak 0.8, low diesel price 1.0). -/
def cs_fixture : CountrySpec :=
  { grid_price := 0.15, grid_losses := 0.08, base_to_peak := 0.8,
    diesel_price_low := 1 }

/-- A country row whose ratio fields satisfy the documented constraints but
whose diesel price is (physically nonsensically) negative. -/
def cs_negfuel : CountrySpec :=
  { grid_price := 0, grid_losses := 0, base_to_peak := 1,
    diesel_price_low := -(10 ^ 9) }

/-- The mini-grid hydro parameter record at density 100, demand 1000,
full-cost mode. -/
def p_hydro : LcoeParams := off_grid_params .mgHydro cs_fixture 100 1000 false

/-- The stand-alone PV (low irradiation) record at density 10, demand 1000,
full-cost mode. -/
def p_sapv : LcoeParams := off_grid_params .saPvLow cs_fixture 10 1000 false

/-- The grid parameter record of the fixture country at density 1000,
demand 1000, additional distance 5, full-cost mode. -/
def p_grid5 : LcoeParams := grid_params cs_fixture 1000 1000 false 5

/-- The mini-grid hydro record at density 10, demand 1000, except with a
negative capacity factor. -/
def p_negcf : LcoeParams :=
  { people := 10, scen := 1000, om_of_td_lines := 0.03,
    distribution_losses := 0.05, connection_cost_per_hh := 100,
    base_to_peak := 1, system_life := 30, mv_line_length := 5,
    om_costs := 0.02, capital_cost := 5000, capacity_factor := -0.5 }

/-- The mini-grid hydro record at demand 1000, except with zero people. -/
def p_zero_people : LcoeParams :=
  { people := 0, scen := 1000, om_of_td_lines := 0.03,
    distribution_losses := 0.05, connection_cost_per_hh := 100,
    base_to_peak := 1, system_life := 30, mv_line_length := 5,
    om_costs := 0.02, capital_cost := 5000, capacity_factor := 0.5 }

/-! ## Positivity and nonnegativity of the intermediate quantities -/

lemma people_s_pos (p : LcoeParams) (hp : 0 < p.people) : 0 < people_s p :=
  mul_pos hp (by norm_num [grid_cell_area])

lemma hh_pos (p : LcoeParams) (hp : 0 < p.people) :
    0 < people_s p / NUM_PEOPLE_PER_HH :=
  div_pos (people_s_pos p hp) (by norm_num [NUM_PEOPLE_PER_HH])

lemma consumption_pos (p : LcoeParams) (hp : 0 < p.people) (hs : 0 < p.scen) :
    0 < consumption p :=
  mul_pos (hh_pos p hp) hs

lemma average_load_pos (p : LcoeParams) (hp : 0 < p.people) (hs : 0 < p.scen)
    (hl : 0 ≤ p.distribution_losses) : 0 < average_load p :=
  div_pos (mul_pos (consumption_pos p hp hs) (by linarith))
    (by norm_num [HOURS_PER_YEAR])

lemma peak_load_pos (p : LcoeParams) (hp : 0 < p.people) (hs : 0 < p.scen)
    (hl : 0 ≤ p.distribution_losses) (hb : 0 < p.base_to_peak) :
    0 < peak_load p :=
  div_pos (average_load_pos p hp hs hl) hb

lemma no_mv_lines_pos (p : LcoeParams) (hp : 0 < p.people) (hs : 0 < p.scen)
    (hl : 0 ≤ p.distribution_losses) (hb : 0 < p.base_to_peak) :
    0 < no_mv_lines p :=
  Int.ceil_pos.mpr
    (div_pos (peak_load_pos p hp hs hl hb) (by norm_num [mv_line_capacity]))

lemma no_lv_lines_pos (p : LcoeParams) (hp : 0 < p.people) (hs : 0 < p.scen)
    (hl : 0 ≤ p.distribution_losses) (hb : 0 < p.base_to_peak) :
    0 < no_lv_lines p :=
  Int.ceil_pos.mpr
    (div_pos (peak_load_pos p hp hs hl hb) (by norm_num [lv_line_capacity]))

lemma actual_lv_lines_pos (p : LcoeParams) (hp : 0 < p.people) (hs : 0 < p.scen)
    (hl : 0 ≤ p.distribution_losses) (hb : 0 < p.base_to_peak) :
    0 < actual_lv_lines p := by
  refine Int.ceil_pos.mpr (lt_min (hh_pos p hp) ?_)
  refine lt_of_lt_of_le ?_ (le_max_left _ _)
  exact div_pos (by exact_mod_cast no_lv_lines_pos p hp hs hl hb)
    (by exact_mod_cast no_mv_lines_pos p hp hs hl hb)

lemma hh_per_lv_network_pos (p : LcoeParams) (hp : 0 < p.people) (hs : 0 < p.scen)
    (hl : 0 ≤ p.distribution_losses) (hb : 0 < p.base_to_peak) :
    0 < hh_per_lv_network p :=
  div_pos (hh_pos p hp)
    (mul_pos (by exact_mod_cast actual_lv_lines_pos p hp hs hl hb)
      (by exact_mod_cast no_mv_lines_pos p hp hs hl hb))

lemma lv_unit_length_pos (p : LcoeParams) (hp : 0 < p.people) :
    0 < lv_unit_length p := by
  unfold lv_unit_length
  have h1 : 0 < Real.sqrt (grid_cell_area / (people_s p / NUM_PEOPLE_PER_HH)) :=
    Real.sqrt_pos.mpr (div_pos (by norm_num [grid_cell_area]) (hh_pos p hp))
  have h2 : 0 < Real.sqrt 2 := Real.sqrt_pos.mpr (by norm_num)
  positivity

lemma total_lv_lines_length_pos (p : LcoeParams) (hp : 0 < p.people)
    (hs : 0 < p.scen) (hl : 0 ≤ p.distribution_losses) (hb : 0 < p.base_to_peak) :
    0 < total_lv_lines_length p := by
  unfold total_lv_lines_length lv_lines_length_per_lv_network
  have h1 : (0 : ℝ) < (no_mv_lines p : ℝ) := by
    exact_mod_cast no_mv_lines_pos p hp hs hl hb
  have h2 : (0 : ℝ) < (actual_lv_lines p : ℝ) := by
    exact_mod_cast actual_lv_lines_pos p hp hs hl hb
  have h3 := hh_per_lv_network_pos p hp hs hl hb
  have h4 := lv_unit_length_pos p hp
  positivity

lemma line_reach_pos (p : LcoeParams) (hp : 0 < p.people) (hs : 0 < p.scen)
    (hl : 0 ≤ p.distribution_losses) (hb : 0 < p.base_to_peak) :
    0 < line_reach p := by
  unfold line_reach
  have h1 : (0 : ℝ) < (no_mv_lines p : ℝ) := by
    exact_mod_cast no_mv_lines_pos p hp hs hl hb
  have h2 : (0 : ℝ) < (no_lv_lines p : ℝ) := by
    exact_mod_cast no_lv_lines_pos p hp hs hl hb
  have h3 : 0 < Real.sqrt (grid_cell_area / (no_lv_lines p : ℝ)) :=
    Real.sqrt_pos.mpr (div_pos (by norm_num [grid_cell_area]) h2)
  have h4 : (0 : ℝ) < grid_cell_area := by norm_num [grid_cell_area]
  positivity

lemma min_line_reach_pos (p : LcoeParams) (hp : 0 < p.people) (hs : 0 < p.scen)
    (hl : 0 ≤ p.distribution_losses) (hb : 0 < p.base_to_peak) :
    0 < min (line_reach p) mv_line_max_length :=
  lt_min (line_reach_pos p hp hs hl hb) (by norm_num [mv_line_max_length])

lemma total_length_of_lines_nonneg (p : LcoeParams) (hp : 0 < p.people)
    (hs : 0 < p.scen) (hl : 0 ≤ p.distribution_losses) (hb : 0 < p.base_to_peak) :
    0 ≤ total_length_of_lines p :=
  mul_nonneg (le_of_lt (min_line_reach_pos p hp hs hl hb))
    (by exact_mod_cast le_of_lt (no_mv_lines_pos p hp hs hl hb))

lemma additional_hv_lines_nonneg (p : LcoeParams) : 0 ≤ additional_hv_lines p :=
  le_max_left 0 _

lemma hv_lines_total_length_nonneg (p : LcoeParams) :
    0 ≤ hv_lines_total_length p := by
  unfold hv_lines_total_length
  have h1 := Real.sqrt_nonneg (grid_cell_area)
  have h2 := additional_hv_lines_nonneg p
  positivity

lemma num_transformers_nonneg (p : LcoeParams) (hp : 0 < p.people)
    (hs : 0 < p.scen) (hl : 0 ≤ p.distribution_losses) (hb : 0 < p.base_to_peak) :
    0 ≤ num_transformers p := by
  refine Int.ceil_nonneg ?_
  have h1 : (0 : ℝ) < (no_mv_lines p : ℝ) := by
    exact_mod_cast no_mv_lines_pos p hp hs hl hb
  have h2 : (0 : ℝ) < (actual_lv_lines p : ℝ) := by
    exact_mod_cast actual_lv_lines_pos p hp hs hl hb
  have h3 := additional_hv_lines_nonneg p
  positivity

lemma generation_per_year_pos (p : LcoeParams) (hp : 0 < p.people)
    (hs : 0 < p.scen) (hl : 0 ≤ p.distribution_losses) :
    0 < generation_per_year p :=
  mul_pos (average_load_pos p hp hs hl) (by norm_num [HOURS_PER_YEAR])

lemma td_investment_cost_grid_nonneg (p : LcoeParams) (hp : 0 < p.people)
    (hs : 0 < p.scen) (hl : 0 ≤ p.distribution_losses) (hb : 0 < p.base_to_peak)
    (hc : 0 ≤ p.connection_cost_per_hh) (hd : 0 ≤ p.additional_mv_line_length) :
    0 ≤ td_investment_cost_grid p := by
  unfold td_investment_cost_grid
  have h1 := hv_lines_total_length_nonneg p
  have h2 := total_length_of_lines_nonneg p hp hs hl hb
  have h3 := le_of_lt (total_lv_lines_length_pos p hp hs hl hb)
  have h4 : (0 : ℝ) ≤ (num_transformers p : ℝ) := by
    exact_mod_cast num_transformers_nonneg p hp hs hl hb
  have h5 := le_of_lt (hh_pos p hp)
  have h6 : (0 : ℝ) <
      (1 + mv_increase_rate) ^ (p.additional_mv_line_length / 5 - 1) :=
    Real.rpow_pos_of_pos (by norm_num [mv_increase_rate]) _
  have h7 : (0 : ℝ) < mv_line_cost := by norm_num [mv_line_cost]
  have h8 : (0 : ℝ) < hv_line_cost := by norm_num [hv_line_cost]
  have h9 : (0 : ℝ) < lv_line_cost := by norm_num [lv_line_cost]
  have h10 : (0 : ℝ) < hv_lv_transformer_cost := by norm_num [hv_lv_transformer_cost]
  positivity

lemma installed_capacity_nonneg (p : LcoeParams) (hp : 0 < p.people)
    (hs : 0 < p.scen) (hl : 0 ≤ p.distribution_losses) (hb : 0 < p.base_to_peak)
    (hcf : 0 < p.capacity_factor) : 0 ≤ installed_capacity p :=
  le_of_lt (div_pos (peak_load_pos p hp hs hl hb) hcf)

lemma total_lv_lines_length_adj_nonneg (p : LcoeParams) (hp : 0 < p.people)
    (hs : 0 < p.scen) (hl : 0 ≤ p.distribution_losses) (hb : 0 < p.base_to_peak) :
    0 ≤ total_lv_lines_length_adj p := by
  unfold total_lv_lines_length_adj
  refine mul_nonneg (le_of_lt (total_lv_lines_length_pos p hp hs hl hb)) ?_
  split <;> norm_num

lemma td_investment_cost_nongrid_nonneg (p : LcoeParams) (hp : 0 < p.people)
    (hs : 0 < p.scen) (hl : 0 ≤ p.distribution_losses) (hb : 0 < p.base_to_peak)
    (hc : 0 ≤ p.connection_cost_per_hh) (hmv : 0 ≤ p.mv_line_length) :
    0 ≤ td_investment_cost_nongrid p := by
  unfold td_investment_cost_nongrid
  have h1 := total_lv_lines_length_adj_nonneg p hp hs hl hb
  have h2 := le_of_lt (hh_pos p hp)
  have h3 : (0 : ℝ) < mv_line_cost := by norm_num [mv_line_cost]
  have h4 : (0 : ℝ) < lv_line_cost := by norm_num [lv_line_cost]
  positivity

lemma total_investment_cost_nonneg (p : LcoeParams) (hp : 0 < p.people)
    (hs : 0 < p.scen) (hl : 0 ≤ p.distribution_losses) (hb : 0 < p.base_to_peak)
    (hc : 0 ≤ p.connection_cost_per_hh) (hd : 0 ≤ p.additional_mv_line_length)
    (hmv : 0 ≤ p.mv_line_length) (hcf : 0 < p.capacity_factor)
    (hcc : 0 ≤ p.capital_cost) : 0 ≤ total_investment_cost p := by
  unfold total_investment_cost
  split
  · exact td_investment_cost_grid_nonneg p hp hs hl hb hc hd
  · exact add_nonneg (td_investment_cost_nongrid_nonneg p hp hs hl hb hc hmv)
      (mul_nonneg (installed_capacity_nonneg p hp hs hl hb hcf) hcc)

lemma total_om_cost_nonneg (p : LcoeParams) (hp : 0 < p.people)
    (hs : 0 < p.scen) (hl : 0 ≤ p.distribution_losses) (hb : 0 < p.base_to_peak)
    (hc : 0 ≤ p.connection_cost_per_hh) (hd : 0 ≤ p.additional_mv_line_length)
    (hmv : 0 ≤ p.mv_line_length) (hcf : 0 < p.capacity_factor)
    (hcc : 0 ≤ p.capital_cost) (hot : 0 ≤ p.om_of_td_lines)
    (hoc : 0 ≤ p.om_costs) : 0 ≤ total_om_cost p := by
  unfold total_om_cost
  split
  · exact mul_nonneg (td_investment_cost_grid_nonneg p hp hs hl hb hc hd) hot
  · exact add_nonneg
      (mul_nonneg (td_investment_cost_nongrid_nonneg p hp hs hl hb hc hmv) hot)
      (mul_nonneg (mul_nonneg hcc hoc) (installed_capacity_nonneg p hp hs hl hb hcf))

lemma fuel_cost_nonneg (p : LcoeParams) (hdp : 0 ≤ p.diesel_price)
    (he : 0 ≤ p.efficiency) (hgp : 0 ≤ p.grid_price) : 0 ≤ fuel_cost p := by
  unfold fuel_cost
  split
  · exact div_nonneg hdp he
  · split
    · exact hgp
    · exact le_refl 0

/-! ## Properties of the discounted-cash-flow roll-up -/

lemma discount_base_pos : (0 : ℝ) < 1 + discount_rate := by norm_num [discount_rate]

lemma discounted_gen_sum_nonneg (G : ℝ) (L : ℕ) (hG : 0 ≤ G) :
    0 ≤ discounted_gen_sum G L := by
  unfold discounted_gen_sum
  refine Finset.sum_nonneg (fun y _ => div_nonneg ?_ (le_of_lt (pow_pos discount_base_pos y)))
  split
  · exact le_refl 0
  · exact hG

lemma discounted_gen_sum_pos (G : ℝ) (L : ℕ) (hG : 0 < G) (hL : 1 ≤ L) :
    0 < discounted_gen_sum G L := by
  unfold discounted_gen_sum
  refine Finset.sum_pos' (fun y _ => div_nonneg ?_ (le_of_lt (pow_pos discount_base_pos y)))
    ⟨1, Finset.mem_range.mpr (by omega), ?_⟩
  · split
    · exact le_refl 0
    · exact le_of_lt hG
  · simp only [one_ne_zero, if_false]
    exact div_pos hG (pow_pos discount_base_pos 1)

lemma discounted_costs_sum_nonneg (I OM F G : ℝ) (L : ℕ) (hI : 0 ≤ I)
    (hOM : 0 ≤ OM) (hFG : 0 ≤ G * F) : 0 ≤ discounted_costs_sum I OM F G L := by
  unfold discounted_costs_sum
  refine Finset.sum_nonneg (fun y _ => div_nonneg ?_ (le_of_lt (pow_pos discount_base_pos y)))
  rcases Nat.eq_zero_or_pos y with rfl | hy
  · simpa using hI
  · have hy' : y ≠ 0 := Nat.pos_iff_ne_zero.mp hy
    simp only [hy', if_false]
    linarith

lemma discounted_costs_sum_mono (I₁ OM₁ F₁ I₂ OM₂ F₂ G : ℝ) (L : ℕ)
    (hI : I₁ ≤ I₂) (hOM : OM₁ ≤ OM₂) (hFG : G * F₁ ≤ G * F₂) :
    discounted_costs_sum I₁ OM₁ F₁ G L ≤ discounted_costs_sum I₂ OM₂ F₂ G L := by
  unfold discounted_costs_sum
  refine Finset.sum_le_sum (fun y _ => ?_)
  refine (div_le_div_iff_of_pos_right (pow_pos discount_base_pos y)).mpr ?_
  rcases Nat.eq_zero_or_pos y with rfl | hy
  · simpa using hI
  · have hy' : y ≠ 0 := Nat.pos_iff_ne_zero.mp hy
    simp only [hy', if_false]
    linarith

lemma discounted_costs_sum_le_of_nonpos (I OM F G : ℝ) (L : ℕ) (hL : 1 ≤ L)
    (h : OM + G * F ≤ 0) :
    discounted_costs_sum I OM F G L ≤ I + (OM + G * F) / (1 + discount_rate) := by
  unfold discounted_costs_sum
  rw [Finset.sum_range_succ']
  have h0 : ((if (0 : ℕ) = 0 then I else 0) + (if (0 : ℕ) = 0 then 0 else OM) +
      (if (0 : ℕ) = 0 then 0 else G) * F) / (1 + discount_rate) ^ (0 : ℕ) = I := by
    norm_num
  rw [h0]
  have hsum : (∑ y in Finset.range L,
      ((if y + 1 = 0 then I else 0) + (if y + 1 = 0 then 0 else OM) +
        (if y + 1 = 0 then 0 else G) * F) / (1 + discount_rate) ^ (y + 1))
      ≤ OM / (1 + discount_rate) + G * F / (1 + discount_rate) := by
    have hle : ∀ y ∈ Finset.range L,
        ((if y + 1 = 0 then I else 0) + (if y + 1 = 0 then 0 else OM) +
          (if y + 1 = 0 then 0 else G) * F) / (1 + discount_rate) ^ (y + 1)
        ≤ (if y = 0 then (OM + G * F) / (1 + discount_rate) else 0) := by
      intro y _
      rcases Nat.eq_zero_or_pos y with rfl | hy
      · simp only [Nat.succ_ne_zero, if_false, if_true, zero_add, pow_one]
        exact le_of_eq (by ring)
      · have hy' : y ≠ 0 := Nat.pos_iff_ne_zero.mp hy
        simp only [Nat.succ_ne_zero, hy', if_false, zero_add]
        exact div_nonpos_of_nonpos_of_nonneg (by linarith)
          (le_of_lt (pow_pos discount_base_pos _))
    refine le_trans (Finset.sum_le_sum hle) (le_of_eq ?_)
    rw [Finset.sum_ite_eq' (Finset.range L) 0 (fun _ => (OM + G * F) / (1 + discount_rate))]
    rw [if_pos (Finset.mem_range.mpr (by omega))]
    ring
  have hring : I + (OM + G * F) / (1 + discount_rate)
      = OM / (1 + discount_rate) + G * F / (1 + discount_rate) + I := by ring
  rw [hring]
  exact add_le_add_right hsum I

lemma calc_lcoe_nonneg (p : LcoeParams) (hp : 0 < p.people) (hs : 0 < p.scen)
    (hl : 0 ≤ p.distribution_losses) (hb : 0 < p.base_to_peak)
    (hc : 0 ≤ p.connection_cost_per_hh) (hd : 0 ≤ p.additional_mv_line_length)
    (hmv : 0 ≤ p.mv_line_length) (hcf : 0 < p.capacity_factor)
    (hcc : 0 ≤ p.capital_cost) (hot : 0 ≤ p.om_of_td_lines)
    (hoc : 0 ≤ p.om_costs) (hdp : 0 ≤ p.diesel_price) (he : 0 ≤ p.efficiency)
    (hgp : 0 ≤ p.grid_price) : 0 ≤ calc_lcoe p := by
  unfold calc_lcoe
  refine div_nonneg ?_ (discounted_gen_sum_nonneg _ _
    (le_of_lt (generation_per_year_pos p hp hs hl)))
  exact discounted_costs_sum_nonneg _ _ _ _ _
    (total_investment_cost_nonneg p hp hs hl hb hc hd hmv hcf hcc)
    (total_om_cost_nonneg p hp hs hl hb hc hd hmv hcf hcc hot hoc)
    (mul_nonneg (le_of_lt (generation_per_year_pos p hp hs hl))
      (fuel_cost_nonneg p hdp he hgp))

lemma calc_lcoe_le (p q : LcoeParams)
    (hI : total_investment_cost p ≤ total_investment_cost q)
    (hOM : total_om_cost p ≤ total_om_cost q)
    (hG : generation_per_year p = generation_per_year q)
    (hL : p.system_life = q.system_life)
    (hFG : generation_per_year q * fuel_cost p ≤ generation_per_year q * fuel_cost q)
    (hD : 0 < discounted_gen_sum (generation_per_year q) q.system_life) :
    calc_lcoe p ≤ calc_lcoe q := by
  unfold calc_lcoe
  rw [hG, hL]
  exact (div_le_div_iff_of_pos_right hD).mpr
    (discounted_costs_sum_mono _ _ _ _ _ _ _ _ hI hOM hFG)

/-- The roll-up of `calc_lcoe` equals the spec-worded discounted-cash-flow
formula (for any parameter record). -/
lemma calc_lcoe_eq_dcf (p : LcoeParams) :
    calc_lcoe p = dcf_lcoe (total_investment_cost p) (total_om_cost p)
      (fuel_cost p) (generation_per_year p) p.system_life := by
  unfold calc_lcoe dcf_lcoe discounted_costs_sum discounted_gen_sum
  have hdr : (1 + discount_rate : ℝ) = 1 + 0.08 := by norm_num [discount_rate]
  rw [hdr]
  congr 1
  · refine Finset.sum_congr rfl (fun y _ => ?_)
    rcases y with _ | y
    · simp [dcf_year_cost]
    · simp only [Nat.succ_ne_zero, if_false, dcf_year_cost, zero_add]
      rw [mul_comm]
  · refine Finset.sum_congr rfl (fun y _ => ?_)
    rcases y with _ | y
    · simp [dcf_year_gen]
    · simp [dcf_year_gen]

/-! ## The first-hit characterisation of the Resolver scan -/

lemma scan_first_spec (c : ℕ → Prop) (l : List ℕ)
    (hl : l.Pairwise (fun a b => a < b)) :
    (scan_first c l = 1e9 ∧ ∀ p ∈ l, ¬ c p) ∨
    (∃ p ∈ l, scan_first c l = (p : ℝ) ∧ c p ∧ ∀ q ∈ l, q < p → ¬ c q) := by
  induction l with
  | nil => exact Or.inl ⟨rfl, by simp⟩
  | cons a rest ih =>
    by_cases ha : c a
    · refine Or.inr ⟨a, List.mem_cons_self a rest, ?_, ha, ?_⟩
      · simp only [scan_first, if_pos ha]
      · intro q hq hlt
        rcases List.mem_cons.mp hq with rfl | hq'
        · exact absurd hlt (by omega)
        · have : a < q := (List.pairwise_cons.mp hl).1 q hq'
          intro _; omega
    · have hrec := ih (List.pairwise_cons.mp hl).2
      have hscan : scan_first c (a :: rest) = scan_first c rest := by
        simp only [scan_first, if_neg ha]
      rcases hrec with ⟨h1, h2⟩ | ⟨p, hpmem, heq, hcp, hmin⟩
      · refine Or.inl ⟨hscan.trans h1, ?_⟩
        intro q hq
        rcases List.mem_cons.mp hq with rfl | hq'
        · exact ha
        · exact h2 q hq'
      · refine Or.inr ⟨p, List.mem_cons_of_mem a hpmem, hscan.trans heq, hcp, ?_⟩
        intro q hq hlt
        rcases List.mem_cons.mp hq with rfl | hq'
        · exact ha
        · exact hmin q hq' hlt

lemma people_arr_pairwise : people_arr.Pairwise (fun a b => a < b) := by
  unfold people_arr
  exact List.Pairwise.map _ (fun a b h => by omega) (List.pairwise_lt_range 400)

lemma mem_people_arr_10 : (10 : ℕ) ∈ people_arr :=
  List.mem_map.mpr ⟨0, List.mem_range.mpr (by norm_num), rfl⟩

lemma mem_people_arr_1000 : (1000 : ℕ) ∈ people_arr :=
  List.mem_map.mpr ⟨99, List.mem_range.mpr (by norm_num), rfl⟩

lemma people_arr_mem_pos {n : ℕ} (hn : n ∈ people_arr) : 0 < n := by
  rcases List.mem_map.mp hn with ⟨x, _, rfl⟩
  omega

/-! ## Claim theorems -/

/-- Claim C1: for every valid input (`people > 0`, `scenario > 0`,
`system_life ≥ 1`, base-to-peak ratio in `(0, 1]`, capacity factor in
`(0, 1]`), `calc_lcoe` returns exactly the discounted-cash-flow ratio over
`system_life + 1` years: year 0 carries the full investment cost and zero
generation, O&M and fuel; every year `1 .. system_life` carries the same
annual generation, the same O&M cost, and a fuel cost equal to the fuel unit
price times that generation; each year is discounted by `(1 + 0.08) ^ year`;
the result is the sum of discounted costs over the sum of discounted
generation. -/
theorem claim_C1 (p : LcoeParams) (hp : 0 < p.people) (hs : 0 < p.scen)
    (hL : 1 ≤ p.system_life) (hb1 : 0 < p.base_to_peak)
    (hb2 : p.base_to_peak ≤ 1) (hcf1 : 0 < p.capacity_factor)
    (hcf2 : p.capacity_factor ≤ 1) :
    calc_lcoe p = dcf_lcoe (total_investment_cost p) (total_om_cost p)
      (fuel_cost p) (generation_per_year p) p.system_life :=
  calc_lcoe_eq_dcf p

/-- Witness for C1 at the mini-grid hydro record with density 100 and
demand 1000. -/
theorem claim_C1_witness :
    0 < p_hydro.people ∧ 0 < p_hydro.scen ∧ 1 ≤ p_hydro.system_life ∧
    0 < p_hydro.base_to_peak ∧ p_hydro.base_to_peak ≤ 1 ∧
    0 < p_hydro.capacity_factor ∧ p_hydro.capacity_factor ≤ 1 ∧
    calc_lcoe p_hydro = dcf_lcoe (total_investment_cost p_hydro)
      (total_om_cost p_hydro) (fuel_cost p_hydro)
      (generation_per_year p_hydro) p_hydro.system_life := by
  refine ⟨?_, ?_, ?_, ?_, ?_, ?_, ?_,
    claim_C1 p_hydro ?_ ?_ ?_ ?_ ?_ ?_ ?_⟩ <;>
    norm_num [p_hydro, off_grid_params]

/-- Claim C2: for every country and each distance, the Resolver scan over the
400 ascending density samples either keeps the `1e9` sentinel, and then no
sampled density makes the grid LCOE at that distance strictly cheaper than
the curated off-grid minimum (mg diesel, mid wind, the average of the two
stand-alone PV variants, mg hydro), or records a sampled density that
satisfies the strict inequality while no smaller sampled density does. -/
theorem claim_C2 (cs : CountrySpec) (scen d : ℝ) :
    (num_people_for_grid cs scen d = 1e9 ∧
      ∀ p ∈ people_arr,
        ¬ grid_lcoe_at cs scen d p <
            min_lcoe_techs (get_lcoes cs (p : ℝ) scen false)) ∨
    (∃ p ∈ people_arr, num_people_for_grid cs scen d = (p : ℝ) ∧
      grid_lcoe_at cs scen d p <
        min_lcoe_techs (get_lcoes cs (p : ℝ) scen false) ∧
      ∀ q ∈ people_arr, q < p →
        ¬ grid_lcoe_at cs scen d q <
            min_lcoe_techs (get_lcoes cs (q : ℝ) scen false)) :=
  scan_first_spec _ people_arr people_arr_pairwise

/-- Claim C5: the capital-only result of `get_lcoes` equals the full-cost
computation applied to the same parameters with the T&D-line O&M ratio, the
per-technology O&M ratio, the grid electricity price and the diesel fuel
price all set to zero; the cost formula `calc_lcoe` itself is identical in
both modes and the boolean toggle is applied uniformly to all 10 grid calls
and all off-grid calls. -/
theorem claim_C5 (cs : CountrySpec) (people scen : ℝ) :
    get_lcoes cs people scen true = get_lcoes_zeroed cs people scen := rfl

/-- Counterexample for C6: the Portfolio Evaluator's off-grid technology
list has 10 distinct members, not 9 as the claim counts. -/
theorem claim_C6_cex : og_techs.length ≠ 9 ∧ og_techs.length = 10 ∧
    og_techs.Nodup := by decide

/-- Claim C6 (amended): for one country row and one density, the Evaluator
calls the Cost Model once per grid distance — the grid entry is the ordered
map of `calc_lcoe` over the ascending 10-element distance grid — and once
per off-grid technology (10 of them, not 9), each off-grid entry being
`calc_lcoe` of that technology's fixed constant parameter record. -/
theorem claim_C6 (cs : CountrySpec) (people scen : ℝ) (m : Bool) :
    (get_lcoes cs people scen m).grid
        = ELEC_DISTANCES.map (fun d => calc_lcoe (grid_params cs people scen m d))
    ∧ (get_lcoes cs people scen m).grid.length = 10
    ∧ ELEC_DISTANCES = [5, 10, 15, 20, 25, 30, 35, 40, 45, 50]
    ∧ ELEC_DISTANCES.Pairwise (fun a b => a < b)
    ∧ og_techs.length = 10
    ∧ ∀ t ∈ og_techs, tech_lcoe (get_lcoes cs people scen m) t
        = calc_lcoe (off_grid_params t cs people scen m) := by
  refine ⟨rfl, by simp [get_lcoes, ELEC_DISTANCES], rfl, ?_, rfl, ?_⟩
  · norm_num [ELEC_DISTANCES, List.pairwise_cons]
  · intro t _
    cases t <;> rfl

/-- Claim C8: in grid mode, the investment cost is the HV/MV/LV
construction, transformer and per-household connection costs plus an
incremental cost for the additional distance `d` equal to `d` times the
per-km MV line cost multiplied by `(1 + 0.1) ^ (d / 5 - 1)`. -/
theorem claim_C8 (p : LcoeParams) (hg : p.grid = true) :
    total_investment_cost p
      = grid_base_network_cost p +
        incremental_extension_cost p.additional_mv_line_length := by
  unfold total_investment_cost
  rw [hg]
  simp only [if_true]
  unfold td_investment_cost_grid grid_base_network_cost incremental_extension_cost
  norm_num [mv_line_cost, mv_increase_rate]

/-- Witness for C8 at the fixture country's grid record, density 1000,
demand 1000, additional distance 5. -/
theorem claim_C8_witness :
    p_grid5.grid = true ∧
    total_investment_cost p_grid5
      = grid_base_network_cost p_grid5 +
        incremental_extension_cost p_grid5.additional_mv_line_length :=
  ⟨rfl, claim_C8 p_grid5 rfl⟩

/-- Counterexample for C9: at the stand-alone PV record (density 10, demand
1000) the code's non-grid investment cost differs from the claim's formula,
which charges LV line cost on the unreduced LV length for stand-alone
technologies; the code charges no LV line cost at all there. -/
theorem claim_C9_cex :
    total_investment_cost p_sapv ≠ claimed_nongrid_investment p_sapv := by
  have hp : (0 : ℝ) < p_sapv.people := by norm_num [p_sapv, off_grid_params]
  have hs : (0 : ℝ) < p_sapv.scen := by norm_num [p_sapv, off_grid_params]
  have hl : (0 : ℝ) ≤ p_sapv.distribution_losses := by
    norm_num [p_sapv, off_grid_params]
  have hb : (0 : ℝ) < p_sapv.base_to_peak := by norm_num [p_sapv, off_grid_params]
  have hdiff : claimed_nongrid_investment p_sapv - total_investment_cost p_sapv
      = lv_line_cost * total_lv_lines_length p_sapv := by
    unfold claimed_nongrid_investment total_investment_cost
      td_investment_cost_nongrid total_lv_lines_length_adj installed_capacity
    norm_num [p_sapv, off_grid_params]
  have hpos : 0 < lv_line_cost * total_lv_lines_length p_sapv :=
    mul_pos (by norm_num [lv_line_cost]) (total_lv_lines_length_pos _ hp hs hl hb)
  intro h
  rw [h] at hdiff
  rw [sub_self] at hdiff
  rw [← hdiff] at hpos
  exact lt_irrefl 0 hpos

/-- Claim C9 (amended): in non-grid mode the investment cost equals the
local MV line cost plus the LV line cost charged on 75% of the total LV
line length for mini-grid technologies and on zero LV length for
stand-alone technologies, plus the per-household connection cost, plus
peak load divided by capacity factor times the capital cost per kW. -/
theorem claim_C9 (p : LcoeParams) (hg : p.grid = false) :
    total_investment_cost p = amended_nongrid_investment p := by
  unfold total_investment_cost
  rw [hg]
  simp only [Bool.false_eq_true, if_false]
  unfold td_investment_cost_nongrid total_lv_lines_length_adj
    installed_capacity amended_nongrid_investment
  ring

/-- Witness for C9 at the stand-alone PV record with density 10 and
demand 1000. -/
theorem claim_C9_witness :
    p_sapv.grid = false ∧
    total_investment_cost p_sapv = amended_nongrid_investment p_sapv :=
  ⟨rfl, claim_C9 p_sapv rfl⟩

/-- Counterexample for C10: a negative (hence non-positive, physically
invalid) capacity factor does not make the Cost Model raise; the Python
computation runs to completion and returns a numeric value. -/
theorem claim_C10_cex : calc_lcoe_checked p_negcf ≠ none := by
  have hp : (0 : ℝ) < p_negcf.people := by norm_num [p_negcf]
  have hs : (0 : ℝ) < p_negcf.scen := by norm_num [p_negcf]
  have hl : (0 : ℝ) ≤ p_negcf.distribution_losses := by norm_num [p_negcf]
  have hb : (0 : ℝ) < p_negcf.base_to_peak := by norm_num [p_negcf]
  have herr : ¬ python_error p_negcf := by
    unfold python_error
    push_neg
    refine ⟨?_, ?_, ?_, ?_, ?_, ?_, ?_, ?_, ?_, ?_⟩
    · norm_num [p_negcf]
    · exact (no_mv_lines_pos _ hp hs hl hb).ne'
    · exact mul_ne_zero (actual_lv_lines_pos _ hp hs hl hb).ne'
        (no_mv_lines_pos _ hp hs hl hb).ne'
    · exact (hh_pos _ hp).ne'
    · exact div_nonneg (by norm_num [grid_cell_area]) (le_of_lt (hh_pos _ hp))
    · exact (no_lv_lines_pos _ hp hs hl hb).ne'
    · refine div_nonneg (by norm_num [grid_cell_area]) ?_
      exact_mod_cast le_of_lt (no_lv_lines_pos _ hp hs hl hb)
    · exact (mul_pos two_pos (min_line_reach_pos _ hp hs hl hb)).ne'
    · intro _
      norm_num [p_negcf]
    · intro hdiesel
      norm_num [p_negcf] at hdiesel
  simp [calc_lcoe_checked, herr]

/-- Claim C10 (amended): the Cost Model does fail fast — via Python
division-by-zero errors — on zero households and on a zero capacity factor
(non-grid), but not on every non-positive capacity factor: a negative
capacity factor yields a numeric value (see the counterexample). -/
theorem claim_C10 (p : LcoeParams)
    (h : p.people = 0 ∨ (p.grid = false ∧ p.capacity_factor = 0)) :
    calc_lcoe_checked p = none := by
  have herr : python_error p := by
    unfold python_error
    rcases h with h | h
    · exact Or.inr (Or.inr (Or.inr (Or.inl (by simp [people_s, h]))))
    · exact Or.inr (Or.inr (Or.inr (Or.inr (Or.inr (Or.inr (Or.inr
        (Or.inr (Or.inl h))))))))
  simp [calc_lcoe_checked, herr]

/-- Witness for C10 (amended) at the zero-people record. -/
theorem claim_C10_witness :
    (p_zero_people.people = 0 ∨
      (p_zero_people.grid = false ∧ p_zero_people.capacity_factor = 0)) ∧
    calc_lcoe_checked p_zero_people = none :=
  ⟨Or.inl rfl, claim_C10 p_zero_people (Or.inl rfl)⟩

/-! ## Capital-only versus full mode, and distance monotonicity -/

lemma total_om_cost_zero (p : LcoeParams) (h1 : p.om_of_td_lines = 0)
    (h2 : p.om_costs = 0) : total_om_cost p = 0 := by
  unfold total_om_cost
  split <;> simp [h1, h2]

lemma fuel_cost_zero (p : LcoeParams) (h1 : p.diesel_price = 0)
    (h2 : p.grid_price = 0) : fuel_cost p = 0 := by
  unfold fuel_cost
  split
  · simp [h1]
  · split
    · exact h2
    · rfl

/-- A capital-only record (zero O&M ratios and fuel prices) with the same
investment cost, generation and life as a full record with nonnegative cost
inputs has an LCOE no larger than the full record's. -/
lemma calc_lcoe_cap_le_full (p q : LcoeParams)
    (hI : total_investment_cost p = total_investment_cost q)
    (hG : generation_per_year p = generation_per_year q)
    (hL : p.system_life = q.system_life) (h1 : 1 ≤ q.system_life)
    (hp : 0 < q.people) (hs : 0 < q.scen) (hl : 0 ≤ q.distribution_losses)
    (hb : 0 < q.base_to_peak) (hc : 0 ≤ q.connection_cost_per_hh)
    (hd : 0 ≤ q.additional_mv_line_length) (hmv : 0 ≤ q.mv_line_length)
    (hcf : 0 < q.capacity_factor) (hcc : 0 ≤ q.capital_cost)
    (hot : 0 ≤ q.om_of_td_lines) (hoc : 0 ≤ q.om_costs)
    (hdp : 0 ≤ q.diesel_price) (he : 0 ≤ q.efficiency) (hgp : 0 ≤ q.grid_price)
    (hom0 : total_om_cost p = 0) (hf0 : fuel_cost p = 0) :
    calc_lcoe p ≤ calc_lcoe q := by
  refine calc_lcoe_le p q (le_of_eq hI) ?_ hG hL ?_ ?_
  · rw [hom0]
    exact total_om_cost_nonneg q hp hs hl hb hc hd hmv hcf hcc hot hoc
  · rw [hf0, mul_zero]
    exact mul_nonneg (le_of_lt (generation_per_year_pos q hp hs hl))
      (fuel_cost_nonneg q hdp he hgp)
  · exact discounted_gen_sum_pos _ _ (generation_per_year_pos q hp hs hl) h1

/-- The incremental grid-extension cost term grows with the additional
distance. -/
lemma incremental_term_mono (d₁ d₂ : ℝ) (h1 : 0 < d₁) (h12 : d₁ ≤ d₂) :
    d₁ * (mv_line_cost * (1 + mv_increase_rate) ^ (d₁ / 5 - 1))
      ≤ d₂ * (mv_line_cost * (1 + mv_increase_rate) ^ (d₂ / 5 - 1)) := by
  have hb : (1 : ℝ) < 1 + mv_increase_rate := by norm_num [mv_increase_rate]
  have hr : (1 + mv_increase_rate : ℝ) ^ (d₁ / 5 - 1)
      ≤ (1 + mv_increase_rate : ℝ) ^ (d₂ / 5 - 1) :=
    (Real.rpow_le_rpow_left_iff hb).mpr (by linarith)
  have hrp : (0 : ℝ) < (1 + mv_increase_rate) ^ (d₁ / 5 - 1) :=
    Real.rpow_pos_of_pos (by norm_num [mv_increase_rate]) _
  refine mul_le_mul h12 ?_ ?_ (by linarith)
  · exact mul_le_mul_of_nonneg_left hr (by norm_num [mv_line_cost])
  · exact mul_nonneg (by norm_num [mv_line_cost]) (le_of_lt hrp)

/-- Grid LCOE is non-decreasing in the additional MV line distance. -/
lemma grid_lcoe_mono_distance (cs : CountrySpec) (people scen : ℝ) (m : Bool)
    (hp : 0 < people) (hs : 0 < scen) (hl : 0 ≤ cs.grid_losses)
    (hb : 0 < cs.base_to_peak) (d₁ d₂ : ℝ) (hd1 : 0 < d₁) (hd : d₁ ≤ d₂) :
    calc_lcoe (grid_params cs people scen m d₁)
      ≤ calc_lcoe (grid_params cs people scen m d₂) := by
  set P := grid_params cs people scen m d₁ with hP
  set Q := grid_params cs people scen m d₂ with hQ
  have hTIC : td_investment_cost_grid P ≤ td_investment_cost_grid Q := by
    unfold td_investment_cost_grid
    have e1 : hv_lines_total_length P = hv_lines_total_length Q := rfl
    have e2 : total_length_of_lines P = total_length_of_lines Q := rfl
    have e3 : total_lv_lines_length P = total_lv_lines_length Q := rfl
    have e4 : num_transformers P = num_transformers Q := rfl
    have e5 : people_s P = people_s Q := rfl
    have e6 : P.connection_cost_per_hh = Q.connection_cost_per_hh := rfl
    have e7 : P.additional_mv_line_length = d₁ := rfl
    have e8 : Q.additional_mv_line_length = d₂ := rfl
    rw [e1, e2, e3, e4, e5, e6, e7, e8]
    exact add_le_add_left (incremental_term_mono d₁ d₂ hd1 hd) _
  have hgP : P.grid = true := rfl
  have hgQ : Q.grid = true := rfl
  have hot : (0 : ℝ) ≤ Q.om_of_td_lines := by
    cases m <;> norm_num [hQ, grid_params]
  refine calc_lcoe_le P Q ?_ ?_ rfl rfl ?_ ?_
  · unfold total_investment_cost
    rw [hgP, hgQ]
    simpa using hTIC
  · unfold total_om_cost
    rw [hgP, hgQ]
    simp only [if_true]
    have hom : P.om_of_td_lines = Q.om_of_td_lines := rfl
    rw [hom]
    exact mul_le_mul_of_nonneg_right hTIC hot
  · exact le_refl _
  · refine discounted_gen_sum_pos _ _ (generation_per_year_pos Q hp hs hl) ?_
    norm_num [hQ, grid_params]

lemma mem_elec_distances_pos {d : ℝ} (hd : d ∈ ELEC_DISTANCES) : 0 < d := by
  simp only [ELEC_DISTANCES, List.mem_cons, List.not_mem_nil, or_false] at hd
  rcases hd with rfl | rfl | rfl | rfl | rfl | rfl | rfl | rfl | rfl | rfl <;>
    norm_num

/-- Claim C4: for every country and every density, the 10-value grid LCOE
sequence returned by the Portfolio Evaluator is non-decreasing along the
ascending additional-distance grid 5, 10, ..., 50, in either mode. -/
theorem claim_C4 (cs : CountrySpec) (people scen : ℝ) (m : Bool)
    (hp : 0 < people) (hs : 0 < scen) (hl : 0 ≤ cs.grid_losses)
    (hb : 0 < cs.base_to_peak) :
    ((get_lcoes cs people scen m).grid).Pairwise (fun a b => a ≤ b) := by
  have hrw : (get_lcoes cs people scen m).grid
      = ELEC_DISTANCES.map (fun d => calc_lcoe (grid_params cs people scen m d)) :=
    rfl
  rw [hrw]
  refine List.Pairwise.map _ (fun a b hab => ?_)
    (show ELEC_DISTANCES.Pairwise (fun a b => 0 < a ∧ a ≤ b) by
      norm_num [ELEC_DISTANCES, List.pairwise_cons])
  exact grid_lcoe_mono_distance cs people scen m hp hs hl hb a b hab.1 hab.2

/-- Witness for C4 at the fixture country, density 1000, demand 1000,
full-cost mode. -/
theorem claim_C4_witness :
    (0 : ℝ) < 1000 ∧ 0 ≤ cs_fixture.grid_losses ∧ 0 < cs_fixture.base_to_peak ∧
    ((get_lcoes cs_fixture 1000 1000 false).grid).Pairwise (fun a b => a ≤ b) :=
  ⟨by norm_num, by norm_num [cs_fixture], by norm_num [cs_fixture],
    claim_C4 cs_fixture 1000 1000 false (by norm_num) (by norm_num)
      (by norm_num [cs_fixture]) (by norm_num [cs_fixture])⟩

lemma tech_lcoe_get_lcoes (cs : CountrySpec) (people scen : ℝ) (m : Bool)
    (t : OffGridTech) : tech_lcoe (get_lcoes cs people scen m) t
      = calc_lcoe (off_grid_params t cs people scen m) := by
  cases t <;> rfl

/-- Claim C3: for every country specification, density, scenario and
technology (under valid parameters: positive density and demand,
nonnegative losses, positive base-to-peak ratio, nonnegative prices), the
capital-only LCOE is at most the full LCOE from identical parameters; for
the grid technology this holds componentwise at each of the 10 distances. -/
theorem claim_C3 (cs : CountrySpec) (people scen : ℝ)
    (hp : 0 < people) (hs : 0 < scen) (hl : 0 ≤ cs.grid_losses)
    (hb : 0 < cs.base_to_peak) (hgp : 0 ≤ cs.grid_price)
    (hdp : 0 ≤ cs.diesel_price_low) :
    List.Forall₂ (fun a b => a ≤ b) (get_lcoes cs people scen true).grid
      (get_lcoes cs people scen false).grid
    ∧ ∀ t : OffGridTech, tech_lcoe (get_lcoes cs people scen true) t
        ≤ tech_lcoe (get_lcoes cs people scen false) t := by
  constructor
  · show List.Forall₂ (fun a b => a ≤ b)
      (ELEC_DISTANCES.map (fun d => calc_lcoe (grid_params cs people scen true d)))
      (ELEC_DISTANCES.map (fun d => calc_lcoe (grid_params cs people scen false d)))
    rw [List.forall₂_map_left_iff, List.forall₂_map_right_iff, List.forall₂_same]
    intro d hd
    have hd0 : 0 < d := mem_elec_distances_pos hd
    exact calc_lcoe_cap_le_full
      (grid_params cs people scen true d) (grid_params cs people scen false d)
      rfl rfl rfl (by norm_num [grid_params]) hp hs hl hb
      (by norm_num [grid_params]) (le_of_lt hd0) (by norm_num [grid_params])
      (by norm_num [grid_params]) (by norm_num [grid_params])
      (by norm_num [grid_params]) (by norm_num [grid_params])
      (by norm_num [grid_params]) (by norm_num [grid_params])
      (by simpa [grid_params] using hgp)
      (total_om_cost_zero _ (by norm_num [grid_params]) (by norm_num [grid_params]))
      (fuel_cost_zero _ (by norm_num [grid_params]) (by norm_num [grid_params]))
  · intro t
    rw [tech_lcoe_get_lcoes, tech_lcoe_get_lcoes]
    cases t <;>
      exact calc_lcoe_cap_le_full _ _
        rfl rfl rfl (by norm_num [off_grid_params]) hp hs
        (by norm_num [off_grid_params]) (by norm_num [off_grid_params])
        (by norm_num [off_grid_params]) (by norm_num [off_grid_params])
        (by norm_num [off_grid_params])
        (by norm_num [off_grid_params, HOURS_PER_YEAR])
        (by norm_num [off_grid_params]) (by norm_num [off_grid_params])
        (by norm_num [off_grid_params])
        (by simp only [off_grid_params]
            first
              | exact div_nonneg hdp (by norm_num [LHV_DIESEL])
              | norm_num)
        (by norm_num [off_grid_params]) (by norm_num [off_grid_params])
        (total_om_cost_zero _ (by norm_num [off_grid_params])
          (by norm_num [off_grid_params]))
        (fuel_cost_zero _ (by norm_num [off_grid_params])
          (by norm_num [off_grid_params]))

/-- Witness for C3 at the fixture country, density 1000, demand 1000. -/
theorem claim_C3_witness :
    (0 : ℝ) < 1000 ∧ 0 ≤ cs_fixture.grid_losses ∧ 0 < cs_fixture.base_to_peak ∧
    0 ≤ cs_fixture.grid_price ∧ 0 ≤ cs_fixture.diesel_price_low ∧
    (List.Forall₂ (fun a b => a ≤ b) (get_lcoes cs_fixture 1000 1000 true).grid
        (get_lcoes cs_fixture 1000 1000 false).grid
      ∧ ∀ t : OffGridTech, tech_lcoe (get_lcoes cs_fixture 1000 1000 true) t
          ≤ tech_lcoe (get_lcoes cs_fixture 1000 1000 false) t) :=
  ⟨by norm_num, by norm_num [cs_fixture], by norm_num [cs_fixture],
    by norm_num [cs_fixture], by norm_num [cs_fixture],
    claim_C3 cs_fixture 1000 1000 (by norm_num) (by norm_num)
      (by norm_num [cs_fixture]) (by norm_num [cs_fixture])
      (by norm_num [cs_fixture]) (by norm_num [cs_fixture])⟩

lemma ite_mode_nonneg (m : Bool) (c : ℝ) (hc : 0 ≤ c) :
    0 ≤ (if m then 0 else c : ℝ) := by
  cases m with
  | false => simpa
  | true => simp

lemma ite_diesel_price_nonneg (cs : CountrySpec) (m : Bool)
    (hdp : 0 ≤ cs.diesel_price_low) :
    0 ≤ (if m then 0 else cs.diesel_price_low / LHV_DIESEL : ℝ) :=
  ite_mode_nonneg m _ (div_nonneg hdp (by norm_num [LHV_DIESEL]))

/-- Claim C7 (amended): for every density in the sampled range, every
technology, every positive scenario and every country specification with
positive base-to-peak ratio, grid-loss ratio in `[0, 1)` **and nonnegative
grid and diesel prices**, every LCOE entry is nonnegative and every
discounted-generation denominator is strictly positive (so the computation
is well defined; with a negative price the code returns a negative LCOE,
see the counterexample). -/
theorem claim_C7 (cs : CountrySpec) (scen : ℝ) (m : Bool) (people : ℕ)
    (hmem : people ∈ people_arr) (hs : 0 < scen) (hb : 0 < cs.base_to_peak)
    (hl0 : 0 ≤ cs.grid_losses) (hl1 : cs.grid_losses < 1)
    (hgp : 0 ≤ cs.grid_price) (hdp : 0 ≤ cs.diesel_price_low) :
    (∀ x ∈ (get_lcoes cs (people : ℝ) scen m).grid, 0 ≤ x)
    ∧ (∀ t : OffGridTech, 0 ≤ tech_lcoe (get_lcoes cs (people : ℝ) scen m) t)
    ∧ (∀ d ∈ ELEC_DISTANCES, 0 < discounted_gen_sum
        (generation_per_year (grid_params cs (people : ℝ) scen m d)) 30)
    ∧ (∀ t : OffGridTech, 0 < discounted_gen_sum
        (generation_per_year (off_grid_params t cs (people : ℝ) scen m))
        (off_grid_params t cs (people : ℝ) scen m).system_life) := by
  have hp : (0 : ℝ) < (people : ℝ) := by exact_mod_cast people_arr_mem_pos hmem
  refine ⟨?_, ?_, ?_, ?_⟩
  · intro x hx
    have hx' : x ∈ ELEC_DISTANCES.map
        (fun d => calc_lcoe (grid_params cs (people : ℝ) scen m d)) := hx
    rcases List.mem_map.mp hx' with ⟨d, hd, rfl⟩
    have hd0 : 0 < d := mem_elec_distances_pos hd
    refine calc_lcoe_nonneg _ hp hs hl0 hb (by norm_num [grid_params])
      (le_of_lt hd0) (by norm_num [grid_params]) (by norm_num [grid_params])
      (by norm_num [grid_params]) ?_ (by norm_num [grid_params])
      (by norm_num [grid_params]) (by norm_num [grid_params]) ?_
    · simp only [grid_params]
      exact ite_mode_nonneg m _ (by norm_num)
    · simp only [grid_params]
      exact ite_mode_nonneg m _ hgp
  · intro t
    rw [tech_lcoe_get_lcoes]
    cases t <;>
      refine calc_lcoe_nonneg _ hp hs (by norm_num [off_grid_params])
        (by norm_num [off_grid_params]) (by norm_num [off_grid_params])
        (by norm_num [off_grid_params]) (by norm_num [off_grid_params])
        (by norm_num [off_grid_params, HOURS_PER_YEAR])
        (by norm_num [off_grid_params])
        (by simp only [off_grid_params]
            first
              | exact ite_mode_nonneg m _ (by norm_num)
              | norm_num)
        (by simp only [off_grid_params]
            exact ite_mode_nonneg m _ (by norm_num))
        (by simp only [off_grid_params]
            first
              | exact ite_diesel_price_nonneg cs m hdp
              | norm_num)
        (by norm_num [off_grid_params]) (by norm_num [off_grid_params])
  · intro d _
    exact discounted_gen_sum_pos _ _ (generation_per_year_pos _ hp hs hl0)
      (by norm_num)
  · intro t
    cases t <;>
      exact discounted_gen_sum_pos _ _
        (generation_per_year_pos _ hp hs (by norm_num [off_grid_params]))
        (by norm_num [off_grid_params])

/-- Witness for C7 (amended) at the fixture country, density 1000, demand
1000, full-cost mode. -/
theorem claim_C7_witness :
    (1000 : ℕ) ∈ people_arr ∧ (0 : ℝ) < 1000 ∧ 0 < cs_fixture.base_to_peak ∧
    0 ≤ cs_fixture.grid_losses ∧ cs_fixture.grid_losses < 1 ∧
    0 ≤ cs_fixture.grid_price ∧ 0 ≤ cs_fixture.diesel_price_low ∧
    ((∀ x ∈ (get_lcoes cs_fixture ((1000 : ℕ) : ℝ) 1000 false).grid, 0 ≤ x)
    ∧ (∀ t : OffGridTech,
        0 ≤ tech_lcoe (get_lcoes cs_fixture ((1000 : ℕ) : ℝ) 1000 false) t)
    ∧ (∀ d ∈ ELEC_DISTANCES, 0 < discounted_gen_sum
        (generation_per_year (grid_params cs_fixture ((1000 : ℕ) : ℝ) 1000 false d)) 30)
    ∧ (∀ t : OffGridTech, 0 < discounted_gen_sum
        (generation_per_year (off_grid_params t cs_fixture ((1000 : ℕ) : ℝ) 1000 false))
        (off_grid_params t cs_fixture ((1000 : ℕ) : ℝ) 1000 false).system_life)) :=
  ⟨mem_people_arr_1000, by norm_num, by norm_num [cs_fixture],
    by norm_num [cs_fixture], by norm_num [cs_fixture], by norm_num [cs_fixture],
    by norm_num [cs_fixture],
    claim_C7 cs_fixture 1000 false 1000 mem_people_arr_1000 (by norm_num)
      (by norm_num [cs_fixture]) (by norm_num [cs_fixture])
      (by norm_num [cs_fixture]) (by norm_num [cs_fixture])
      (by norm_num [cs_fixture])⟩

/-- Counterexample for C7: with a negative diesel price — a country row the
claim's stated hypotheses admit — the stand-alone diesel LCOE at density 10,
demand 1000 is negative, not nonnegative. -/
theorem claim_C7_cex : (get_lcoes cs_negfuel 10 1000 false).sa_diesel < 0 := by
  show calc_lcoe (off_grid_params .saDiesel cs_negfuel 10 1000 false) < 0
  unfold calc_lcoe
  apply div_neg_of_neg_of_pos
  · refine lt_of_le_of_lt
      (discounted_costs_sum_le_of_nonpos _ _ _ _ _
        (by norm_num [off_grid_params]) ?_) ?_
    · norm_num [total_om_cost, td_investment_cost_nongrid,
        total_lv_lines_length_adj, installed_capacity, peak_load, average_load,
        consumption, people_s, generation_per_year, fuel_cost, off_grid_params,
        cs_negfuel, NUM_PEOPLE_PER_HH, HOURS_PER_YEAR, LHV_DIESEL, mv_line_cost,
        lv_line_cost, grid_cell_area]
    · norm_num [total_investment_cost, total_om_cost, td_investment_cost_nongrid,
        total_lv_lines_length_adj, installed_capacity, peak_load, average_load,
        consumption, people_s, generation_per_year, fuel_cost, off_grid_params,
        cs_negfuel, NUM_PEOPLE_PER_HH, HOURS_PER_YEAR, LHV_DIESEL, mv_line_cost,
        lv_line_cost, grid_cell_area, discount_rate]
  · refine discounted_gen_sum_pos _ _
      (generation_per_year_pos _ (by norm_num [off_grid_params])
        (by norm_num [off_grid_params]) (by norm_num [off_grid_params]))
      (by norm_num [off_grid_params])

end PyOnSSET
